import Mathlib

/-!
Shallow embedding of `rwslib/builders/core.py` (the `ODM` document-root
builder class) together with the spec-modelled fragments of its
collaborators (`GranularityType`, the child sub-builders, and the
list/single attribute helpers from `rwslib.builders.common`, whose source
files are not part of this snapshot).

Python values that flow through dynamically-typed parameters are embedded
as the inductive `PyVal`; Python exceptions are embedded as `Except String`
results, raised before any mutation of the object exactly as in the source
(every `raise` in the source precedes the assignment it guards, so an
error result carries no new state).
-/

set_option autoImplicit false

namespace Rwslib

/-- Modelled from the spec: `GranularityType` (from `rwslib.builders.constants`,
not in this snapshot) is "a fixed enumeration" classifying how much of the
study's data a document contains (e.g. all data vs. single subject); its
"external string value" is used when serializing the `Granularity` attribute. -/
inductive GranularityType where
  | All
  | Metadata
  | AdminDataGranularity
  | ReferenceData
  | AllClinicalData
  | SingleSite
  | SingleSubject
  deriving DecidableEq, Repr

/-- Modelled from the spec: the enumeration's external string mapping used
for serialization (the member's schema name). -/
def GranularityType.value : GranularityType → String
  | .All => "All"
  | .Metadata => "Metadata"
  | .AdminDataGranularity => "AdminData"
  | .ReferenceData => "ReferenceData"
  | .AllClinicalData => "AllClinicalData"
  | .SingleSite => "SingleSite"
  | .SingleSubject => "SingleSubject"

/-- An XML element tree: tag, attributes in emission order, children. -/
inductive XmlNode where
  | elem (tag : String) (attrs : List (String × String)) (children : List XmlNode)

/-- Attribute list of the root element. -/
def XmlNode.attrs : XmlNode → List (String × String)
  | .elem _ a _ => a

/-- Child list of the root element. -/
def XmlNode.children : XmlNode → List XmlNode
  | .elem _ _ c => c

/-- Tag of the root element. -/
def XmlNode.tag : XmlNode → String
  | .elem t _ _ => t

/-- Modelled from the spec: a `Study` sub-builder (from
`rwslib.builders.metadata`, not in this snapshot) is "a child object
exposing a render-into-tree-builder operation"; we represent it by the
element it renders. -/
structure Study where
  node : XmlNode

/-- Modelled from the spec: a `ClinicalData` sub-builder (from
`rwslib.builders.clinicaldata`, not in this snapshot), represented by the
element it renders. -/
structure ClinicalData where
  node : XmlNode

/-- Modelled from the spec: an `AdminData` sub-builder (from
`rwslib.builders.admindata`, not in this snapshot), represented by the
element it renders. -/
structure AdminData where
  node : XmlNode

/-- A dynamically-typed Python value arriving at one of the `ODM`
parameters or setters. `pyOther` stands for any further object (described
by a tag string) that is none of the kinds the code discriminates on. -/
inductive PyVal where
  | pyNone
  | pyStr (s : String)
  | pyInt (n : Int)
  | pyDate (y m d : Nat)
  | pyDateTime (y m d h mi s : Nat)
  | pyGran (g : GranularityType)
  | pyOther (tag : String)
  deriving DecidableEq, Repr

/-- Python truthiness of the embedded values (`if value:`). -/
def PyVal.truthy : PyVal → Bool
  | .pyNone => false
  | .pyStr s => s ≠ ""
  | .pyInt n => n ≠ 0
  | .pyDate _ _ _ => true
  | .pyDateTime _ _ _ _ _ _ => true
  | .pyGran _ => true
  | .pyOther _ => true

/-- Python `isinstance(value, (datetime.datetime, datetime.date,))`. -/
def PyVal.isDateLike : PyVal → Bool
  | .pyDate _ _ _ => true
  | .pyDateTime _ _ _ _ _ _ => true
  | _ => false

/-- Zero-pad a natural number to the given width, as Python date formatting
does. -/
def zeroPad (width n : Nat) : String :=
  let s := toString n
  let l := s.length
  if l < width then String.mk (List.replicate (width - l) '0') ++ s else s

/-- Python `value.isoformat()` for the embedded date and date-time values
(datetimes in this model carry no sub-second part). Other values map to ""
(the source never calls `isoformat` on them). -/
def PyVal.isoformat : PyVal → String
  | .pyDate y m d => zeroPad 4 y ++ "-" ++ zeroPad 2 m ++ "-" ++ zeroPad 2 d
  | .pyDateTime y m d h mi s =>
      zeroPad 4 y ++ "-" ++ zeroPad 2 m ++ "-" ++ zeroPad 2 d ++ "T" ++
      zeroPad 2 h ++ ":" ++ zeroPad 2 mi ++ ":" ++ zeroPad 2 s
  | _ => ""

/-- The instance state of an `ODM` object: exactly the attributes
`ODM.__init__` establishes, with Python's `None` as `Option.none`. -/
structure ODMState where
  originator : String
  description : String
  creationdatetime : String
  source_system : Option String
  source_system_version : Option String
  clinical_data : List ClinicalData
  study : Option Study
  filetype : String
  admindata : Option AdminData
  fileoid : String
  granularity_type_ : Option GranularityType
  odm_version_ : String
  as_of_datetime_ : Option String

namespace ODM

/-- Class constant `ODM.FILETYPE_TRANSACTIONAL`. -/
def FILETYPE_TRANSACTIONAL : String := "Transactional"

/-- Class constant `ODM.FILETYPE_SNAPSHOT`. -/
def FILETYPE_SNAPSHOT : String := "Snapshot"

/-- Class constant `ODM.VALID_ODM_VERSIONS`. -/
def VALID_ODM_VERSIONS : List String := ["1.2", "1.2.1", "1.3", "1.3.1", "1.3.2"]

/-- The `odm_version` property setter: `value in VALID_ODM_VERSIONS` is
False for any non-string and for strings outside the tuple, in which case
a `ValueError` is raised before `_odm_version` is assigned. -/
def set_odm_version (o : ODMState) (value : PyVal) : Except String ODMState :=
  match value with
  | .pyStr s =>
      if s ∈ VALID_ODM_VERSIONS then
        .ok { o with odm_version_ := s }
      else
        .error ("No such supported ODMVersion " ++ s)
  | _ => .error "No such supported ODMVersion"

/-- The `as_of_datetime` property setter: raises `ValueError` unless the
value is a `datetime.date`/`datetime.datetime`, then stores
`value.isoformat()`. -/
def set_as_of_datetime (o : ODMState) (value : PyVal) : Except String ODMState :=
  if value.isDateLike = false then
    .error "Unexpected format for AsOfDateTime"
  else if value.isDateLike then
    .ok { o with as_of_datetime_ := some value.isoformat }
  else
    .ok o

/-- The `granularity_type` property setter: raises `ValueError` unless the
value is a `GranularityType` member. -/
def set_granularity_type (o : ODMState) (value : PyVal) : Except String ODMState :=
  match value with
  | .pyGran g => .ok { o with granularity_type_ := some g }
  | _ => .error "Should be an instance of GranularityType"

end ODM

/-- The arguments of `ODM.__init__`, with the source's default values
(`granularity=GranularityType.AllClinicalData`; all other optionals
`None`/`""`). `Option String` embeds parameters the source checks with
`is None` or only ever receives as text. -/
structure ODMArgs where
  originator : String
  description : String := ""
  creationdatetime : Option String := none
  fileoid : Option String := none
  filetype : PyVal := .pyNone
  granularity : PyVal := .pyGran .AllClinicalData
  source_system : Option String := none
  source_system_version : Option String := none
  odm_version : PyVal := .pyNone
  as_of_datetime : PyVal := .pyNone

namespace ODM

/-- The state `ODM.__init__` establishes up to (not including) the three
guarded setter calls. `now` embeds `now_to_iso8601()` and `freshUuid`
embeds `str(uuid.uuid4())`, the two environment reads of the constructor. -/
def init0 (args : ODMArgs) (now freshUuid : String) : ODMState :=
  { originator := args.originator
    description := args.description
    creationdatetime :=
      match args.creationdatetime with
      | some s => if s = "" then now else s
      | none => now
    source_system := args.source_system
    source_system_version := args.source_system_version
    clinical_data := []
    study := none
    filetype := if args.filetype = .pyNone then FILETYPE_TRANSACTIONAL else FILETYPE_SNAPSHOT
    admindata := none
    fileoid := args.fileoid.getD freshUuid
    granularity_type_ := none
    odm_version_ := "1.3"
    as_of_datetime_ := none }

/-- Constructor `ODM.__init__`: establishes the base state, then runs the three guarded
setter assignments (`if granularity: ...`, `if odm_version: ...`,
`if as_of_datetime: ...`) in source order, any of which may raise. -/
def mk (args : ODMArgs) (now freshUuid : String) : Except String ODMState :=
  let o0 := init0 args now freshUuid
  (if args.granularity.truthy then set_granularity_type o0 args.granularity else .ok o0) >>= fun o1 =>
  (if args.odm_version.truthy then set_odm_version o1 args.odm_version else .ok o1) >>= fun o2 =>
  (if args.as_of_datetime.truthy then set_as_of_datetime o2 args.as_of_datetime else .ok o2)

end ODM

/-- A value passed to `ODM.__lshift__`: one of the three accepted child
kinds, or any other Python object (desribed by a tag string). -/
inductive ODMChild where
  | cd (c : ClinicalData)
  | st (s : Study)
  | ad (a : AdminData)
  | other (tag : String)

namespace ODM

/-- Operator `ODM.__lshift__`: raises `ValueError` for anything that is not a
`ClinicalData`, `Study` or `AdminData`, otherwise attaches the child and
returns it. `set_list_attribute` / `set_single_attribute` (from
`rwslib.builders.common`, not in this snapshot) are modelled from the
spec: ClinicalData children are "appended to the ordered collection",
while a Study or AdminData "replaces any previously attached" one. -/
def lshift (o : ODMState) (other : ODMChild) : Except String (ODMChild × ODMState) :=
  match other with
  | .other _ => .error "ODM object can only receive ClinicalData, Study or AdminData object"
  | .cd c => .ok (other, { o with clinical_data := o.clinical_data ++ [c] })
  | .st s => .ok (other, { o with study := some s })
  | .ad a => .ok (other, { o with admindata := some a })

/-- The Python object state after a `<<` call: on a raise the object was
never mutated (the type check is the first statement of `__lshift__`). -/
def lshiftState (o : ODMState) (other : ODMChild) : ODMState :=
  match lshift o other with
  | .ok (_, s) => s
  | .error _ => o

/-- Fold a sequence of `<<` attachments over the object, each raise
leaving the object untouched. -/
def attachAll (o : ODMState) (cs : List ODMChild) : ODMState :=
  cs.foldl lshiftState o

/-- The object state after assigning the `odm_version` property (unchanged
when the setter raises, since the raise precedes the assignment). -/
def setOdmVersionState (o : ODMState) (v : PyVal) : ODMState :=
  match set_odm_version o v with
  | .ok s => s
  | .error _ => o

/-- The object state after assigning the `as_of_datetime` property
(unchanged when the setter raises). -/
def setAsOfState (o : ODMState) (v : PyVal) : ODMState :=
  match set_as_of_datetime o v with
  | .ok s => s
  | .error _ => o

/-- The object state after assigning the `granularity_type` property
(unchanged when the setter raises). -/
def setGranularityState (o : ODMState) (v : PyVal) : ODMState :=
  match set_granularity_type o v with
  | .ok s => s
  | .error _ => o

/-- Truthiness of an optional string field (`if self.source_system:` and
the like: `None` and `""` are falsy). -/
def optTruthy : Option String → Bool
  | none => false
  | some s => s ≠ ""

/-- The attribute dictionary `ODM.build` assembles, in insertion order:
the six-entry `dict(...)` literal, then each conditional insertion in
source order. -/
def params (o : ODMState) : List (String × String) :=
  [("ODMVersion", o.odm_version_),
   ("FileType", o.filetype),
   ("CreationDateTime", o.creationdatetime),
   ("Originator", o.originator),
   ("FileOID", o.fileoid),
   ("xmlns", "http://www.cdisc.org/ns/odm/v1.3")]
  ++ (match o.granularity_type_ with
      | some g => [("Granularity", g.value)]
      | none => [])
  ++ (if optTruthy o.source_system then [("SourceSystem", o.source_system.getD "")] else [])
  ++ (if optTruthy o.source_system_version then
        [("SourceSystemVersion", o.source_system_version.getD "")] else [])
  ++ [("xmlns:mdsol", "http://www.mdsol.com/ns/odm/metadata")]
  ++ (if o.description ≠ "" then [("Description", o.description)] else [])
  ++ (if optTruthy o.as_of_datetime_ then [("AsOfDateTime", o.as_of_datetime_.getD "")] else [])

/-- Method `ODM.build`: starts the `ODM` element with `params`, then asks the
children in fixed order — the Study (if any), each ClinicalData in list
order, the AdminData (if any) — and closes the element. -/
def build (o : ODMState) : XmlNode :=
  .elem "ODM" (params o)
    ((match o.study with
      | some s => [s.node]
      | none => [])
     ++ o.clinical_data.map ClinicalData.node
     ++ (match o.admindata with
         | some a => [a.node]
         | none => []))

/-- Method `ODM.getroot`: builds the tree and returns the root element. -/
def getroot (o : ODMState) : XmlNode :=
  build o

/-- Method `ODM.getroot` as a state transformer: the method only reads `self`
(every statement of `build` reads fields and writes the local builder), so
the object state after the call is the state before it. -/
def getrootOp (o : ODMState) : XmlNode × ODMState :=
  (getroot o, o)

end ODM

/-- Serialize one attribute as ` key="value"` (values produced by this
builder contain no characters the XML writer would escape differently). -/
def attrText (p : String × String) : String :=
  " " ++ p.1 ++ "=\x22" ++ p.2 ++ "\x22"

mutual

/-- Modelled from the spec: deterministic pretty-printing — the tree
writer emits each element on its own line, "each nesting level indented
consistently" (two spaces per level, as `rwslib.builders.common.indent`,
not in this snapshot, arranges via text/tail rewriting). -/
def XmlNode.render (level : Nat) : XmlNode → String
  | .elem t a c =>
      let pad := String.mk (List.replicate (2 * level) ' ')
      match c with
      | [] => pad ++ "<" ++ t ++ String.join (a.map attrText) ++ " />\n"
      | _ =>
          pad ++ "<" ++ t ++ String.join (a.map attrText) ++ ">\n" ++
          XmlNode.renderList (level + 1) c ++
          pad ++ "</" ++ t ++ ">\n"

/-- Render a child list in order at the given depth. -/
def XmlNode.renderList (level : Nat) : List XmlNode → String
  | [] => ""
  | x :: xs => XmlNode.render level x ++ XmlNode.renderList level xs

end

namespace ODM

/-- Method `ODM.__str__`: build the root, indent it, and prepend the XML
declaration header. -/
def toText (o : ODMState) : String :=
  "<?xml version=\x221.0\x22 encoding=\x22utf-8\x22 ?>\n" ++ (getroot o).render 0

/-- Method `ODM.__str__` as a state transformer: like `getroot`, the method only
reads `self`, so the object state after the call is the state before it. -/
def toTextOp (o : ODMState) : String × ODMState :=
  (toText o, o)

/-- Whether the root element's attribute set carries the given key. -/
def hasAttr (n : XmlNode) (k : String) : Bool :=
  n.attrs.any (fun p => p.1 == k)

/-- A placeholder state, used only as the default of `okState`. -/
def emptyODM : ODMState :=
  { originator := "", description := "", creationdatetime := "",
    source_system := none, source_system_version := none,
    clinical_data := [], study := none, filetype := "", admindata := none,
    fileoid := "", granularity_type_ := none, odm_version_ := "",
    as_of_datetime_ := none }

/-- Extract the state of a successful construction (observer used to state
concrete instances). -/
def okState : Except String ODMState → ODMState
  | .ok s => s
  | .error _ => emptyODM

/-- The stored `_odm_version` of a construction result (observer used to
state concrete instances). -/
def okVersion (r : Except String ODMState) : String :=
  (okState r).odm_version_

end ODM

/-- Whether `__lshift__`'s isinstance check accepts the value (one of the
three child kinds). -/
def ODMChild.acceptable : ODMChild → Bool
  | .other _ => false
  | _ => true

/-- The ClinicalData values in an attachment sequence, in order. -/
def cdsOf (cs : List ODMChild) : List ClinicalData :=
  cs.filterMap fun c =>
    match c with
    | .cd c => some c
    | _ => none

/-- Every attribute key the root element can ever emit, in the emission
order of `ODM.build`. -/
def masterAttrKeys : List String :=
  ["ODMVersion", "FileType", "CreationDateTime", "Originator", "FileOID", "xmlns",
   "Granularity", "SourceSystem", "SourceSystemVersion", "xmlns:mdsol", "Description",
   "AsOfDateTime"]

/-- C1: the rendered root always carries FileOID, ODMVersion, FileType,
CreationDateTime, Originator and both namespace declarations, while each
of Description, Granularity, SourceSystem, SourceSystemVersion and
AsOfDateTime appears iff the corresponding field is set/non-empty. -/
theorem C1_root_attribute_presence (o : ODMState) :
    ODM.hasAttr (ODM.getroot o) "FileOID" = true ∧
    ODM.hasAttr (ODM.getroot o) "ODMVersion" = true ∧
    ODM.hasAttr (ODM.getroot o) "FileType" = true ∧
    ODM.hasAttr (ODM.getroot o) "CreationDateTime" = true ∧
    ODM.hasAttr (ODM.getroot o) "Originator" = true ∧
    ("xmlns", "http://www.cdisc.org/ns/odm/v1.3") ∈ (ODM.getroot o).attrs ∧
    ("xmlns:mdsol", "http://www.mdsol.com/ns/odm/metadata") ∈ (ODM.getroot o).attrs ∧
    (ODM.hasAttr (ODM.getroot o) "Description" = true ↔ o.description ≠ "") ∧
    (ODM.hasAttr (ODM.getroot o) "Granularity" = true ↔ o.granularity_type_.isSome = true) ∧
    (ODM.hasAttr (ODM.getroot o) "SourceSystem" = true ↔ ODM.optTruthy o.source_system = true) ∧
    (ODM.hasAttr (ODM.getroot o) "SourceSystemVersion" = true ↔
      ODM.optTruthy o.source_system_version = true) ∧
    (ODM.hasAttr (ODM.getroot o) "AsOfDateTime" = true ↔ ODM.optTruthy o.as_of_datetime_ = true) := by
  by_cases hd : o.description = "" <;>
  cases hg : o.granularity_type_ <;>
  cases hs : ODM.optTruthy o.source_system <;>
  cases hv : ODM.optTruthy o.source_system_version <;>
  cases ha : ODM.optTruthy o.as_of_datetime_ <;>
  simp_all [ODM.hasAttr, ODM.getroot, ODM.build, XmlNode.attrs, ODM.params]

/-- Peeling one `Except` bind out of a successful computation. -/
theorem exceptBind_ok {α β : Type} {x : Except String α} {f : α → Except String β} {b : β}
    (h : (x >>= f) = .ok b) : ∃ a, x = .ok a ∧ f a = .ok b := by
  cases x with
  | ok a => exact ⟨a, rfl, h⟩
  | error e => simp [Bind.bind, Except.bind] at h

/-- A successful `granularity_type` assignment stores exactly the given
enum member and touches no other field. -/
theorem set_granularity_type_ok {o : ODMState} {v : PyVal} {s : ODMState}
    (h : ODM.set_granularity_type o v = .ok s) :
    ∃ g, v = .pyGran g ∧ s = { o with granularity_type_ := some g } := by
  cases v <;> simp [ODM.set_granularity_type] at h
  case pyGran g => exact ⟨g, rfl, h.symm⟩

/-- A successful `odm_version` assignment stores exactly the given
allow-listed string and touches no other field. -/
theorem set_odm_version_ok {o : ODMState} {v : PyVal} {s : ODMState}
    (h : ODM.set_odm_version o v = .ok s) :
    ∃ ver, ver ∈ ODM.VALID_ODM_VERSIONS ∧ v = .pyStr ver ∧
      s = { o with odm_version_ := ver } := by
  cases v <;> simp [ODM.set_odm_version] at h
  case pyStr str =>
    split at h
    · exact ⟨str, by assumption, rfl, ((Except.ok.inj h)).symm⟩
    · simp at h

/-- A successful `as_of_datetime` assignment stores exactly the ISO form
of the given date value and touches no other field. -/
theorem set_as_of_datetime_ok {o : ODMState} {v : PyVal} {s : ODMState}
    (h : ODM.set_as_of_datetime o v = .ok s) :
    v.isDateLike = true ∧ s = { o with as_of_datetime_ := some v.isoformat } := by
  unfold ODM.set_as_of_datetime at h
  cases hd : v.isDateLike <;> simp [hd] at h
  exact ⟨rfl, h.symm⟩

/-- A successful construction decomposes into the base state followed by
the three guarded setter assignments, in source order. -/
theorem mk_ok_elim {args : ODMArgs} {now u : String} {st : ODMState}
    (h : ODM.mk args now u = .ok st) :
    ∃ o1 o2,
      (if args.granularity.truthy then
        ODM.set_granularity_type (ODM.init0 args now u) args.granularity
       else .ok (ODM.init0 args now u)) = .ok o1 ∧
      (if args.odm_version.truthy then ODM.set_odm_version o1 args.odm_version else .ok o1) = .ok o2 ∧
      (if args.as_of_datetime.truthy then ODM.set_as_of_datetime o2 args.as_of_datetime
       else .ok o2) = .ok st := by
  unfold ODM.mk at h
  obtain ⟨o1, h1, h⟩ := exceptBind_ok h
  obtain ⟨o2, h2, h⟩ := exceptBind_ok h
  exact ⟨o1, o2, h1, h2, h⟩

/-- A successfully constructed object carries the file type and file
identifier computed by the base state (the guarded setters never touch
either field). -/
theorem mk_ok_filetype_fileoid {args : ODMArgs} {now u : String} {st : ODMState}
    (h : ODM.mk args now u = .ok st) :
    st.filetype = (ODM.init0 args now u).filetype ∧
    st.fileoid = (ODM.init0 args now u).fileoid := by
  obtain ⟨o1, o2, h1, h2, h3⟩ := mk_ok_elim h
  have e1 : o1.filetype = (ODM.init0 args now u).filetype ∧
      o1.fileoid = (ODM.init0 args now u).fileoid := by
    by_cases hg : args.granularity.truthy = true
    · rw [if_pos hg] at h1
      obtain ⟨g, _, rfl⟩ := set_granularity_type_ok h1
      exact ⟨rfl, rfl⟩
    · rw [if_neg hg] at h1
      rw [← Except.ok.inj h1]
      exact ⟨rfl, rfl⟩
  have e2 : o2.filetype = o1.filetype ∧ o2.fileoid = o1.fileoid := by
    by_cases hv : args.odm_version.truthy = true
    · rw [if_pos hv] at h2
      obtain ⟨ver, _, _, rfl⟩ := set_odm_version_ok h2
      exact ⟨rfl, rfl⟩
    · rw [if_neg hv] at h2
      rw [← Except.ok.inj h2]
      exact ⟨rfl, rfl⟩
  have e3 : st.filetype = o2.filetype ∧ st.fileoid = o2.fileoid := by
    by_cases ha : args.as_of_datetime.truthy = true
    · rw [if_pos ha] at h3
      obtain ⟨_, rfl⟩ := set_as_of_datetime_ok h3
      exact ⟨rfl, rfl⟩
    · rw [if_neg ha] at h3
      rw [← Except.ok.inj h3]
      exact ⟨rfl, rfl⟩
  exact ⟨e3.1.trans (e2.1.trans e1.1), e3.2.trans (e2.2.trans e1.2)⟩

/-- C7: the stored file type is always one of the two fixed labels: a
`None` filetype argument yields "Transactional", and any non-`None`
argument — the string "Transactional" included — yields "Snapshot". -/
theorem C7_filetype_two_labels (args : ODMArgs) (now u : String) (st : ODMState)
    (h : ODM.mk args now u = .ok st) :
    (args.filetype = .pyNone → st.filetype = "Transactional") ∧
    (args.filetype ≠ .pyNone → st.filetype = "Snapshot") := by
  have hft := (mk_ok_filetype_fileoid h).1
  constructor
  · intro hn
    rw [hft]
    simp [ODM.init0, hn, ODM.FILETYPE_TRANSACTIONAL]
  · intro hn
    rw [hft]
    simp [ODM.init0, hn, ODM.FILETYPE_SNAPSHOT]

/-- C7 witness: concrete constructions exercising both branches
(filetype omitted, and filetype given as the string "Transactional"). -/
theorem C7_filetype_two_labels_witness :
    (ODM.okState (ODM.mk { originator := "SPONSOR" } "T0" "U0")).filetype = "Transactional" ∧
    (ODM.okState (ODM.mk { originator := "SPONSOR", filetype := .pyStr "Transactional" }
      "T0" "U0")).filetype = "Snapshot" := by
  constructor
  · exact (C7_filetype_two_labels { originator := "SPONSOR" } "T0" "U0"
      (ODM.okState (ODM.mk { originator := "SPONSOR" } "T0" "U0")) rfl).1 rfl
  · exact (C7_filetype_two_labels { originator := "SPONSOR", filetype := .pyStr "Transactional" }
      "T0" "U0"
      (ODM.okState (ODM.mk { originator := "SPONSOR", filetype := .pyStr "Transactional" }
        "T0" "U0")) rfl).2 (by decide)

/-- C9: the render and serialization operations leave the object state
unchanged, and every defined operation — child attachment, the three
property setters, render and serialization — leaves the file identifier
unchanged. -/
theorem C9_render_pure_fileoid_frame (o : ODMState) (c : ODMChild) (v w g : PyVal) :
    (ODM.getrootOp o).2 = o ∧
    (ODM.toTextOp o).2 = o ∧
    (ODM.lshiftState o c).fileoid = o.fileoid ∧
    (ODM.setOdmVersionState o v).fileoid = o.fileoid ∧
    (ODM.setAsOfState o w).fileoid = o.fileoid ∧
    (ODM.setGranularityState o g).fileoid = o.fileoid := by
  refine ⟨rfl, rfl, ?_, ?_, ?_, ?_⟩
  · cases c <;> rfl
  · cases v <;> try rfl
    case pyStr s =>
      by_cases hc : s ∈ ODM.VALID_ODM_VERSIONS <;>
        simp [ODM.setOdmVersionState, ODM.set_odm_version, hc]
  · cases hd : w.isDateLike <;> simp [ODM.setAsOfState, ODM.set_as_of_datetime, hd]
  · cases g <;> rfl

/-- Folding the attachment operation appends exactly the ClinicalData
values of the sequence, in order, to the ordered collection. -/
theorem attachAll_clinical_data (o : ODMState) (cs : List ODMChild) :
    (ODM.attachAll o cs).clinical_data = o.clinical_data ++ cdsOf cs := by
  induction cs generalizing o with
  | nil => simp [ODM.attachAll, cdsOf]
  | cons c cs ih =>
    have h1 : ODM.attachAll o (c :: cs) = ODM.attachAll (ODM.lshiftState o c) cs := rfl
    rw [h1, ih]
    cases c <;> simp [ODM.lshiftState, ODM.lshift, cdsOf]

/-- C5: the attachment operation raises the type-mismatch error naming the
three acceptable kinds for every other input, leaving the state unchanged,
and returns the attached child itself for every acceptable input. -/
theorem C5_lshift_type_check (o : ODMState) (c : ODMChild) :
    (c.acceptable = true → ODM.lshift o c = .ok (c, ODM.lshiftState o c)) ∧
    (c.acceptable = false →
      ODM.lshift o c =
        .error "ODM object can only receive ClinicalData, Study or AdminData object" ∧
      ODM.lshiftState o c = o) := by
  cases c <;> simp [ODMChild.acceptable, ODM.lshift, ODM.lshiftState]

/-- C5 witness: a non-child value (a plain int) is rejected with the
type-mismatch message, and a concrete ClinicalData is returned as
attached. -/
theorem C5_lshift_type_check_witness :
    ODM.lshift ODM.emptyODM (.other "int") =
      .error "ODM object can only receive ClinicalData, Study or AdminData object" ∧
    ODM.lshift ODM.emptyODM (.cd ⟨.elem "ClinicalData" [] []⟩) =
      .ok (.cd ⟨.elem "ClinicalData" [] []⟩,
           ODM.lshiftState ODM.emptyODM (.cd ⟨.elem "ClinicalData" [] []⟩)) := by
  constructor
  · exact ((C5_lshift_type_check ODM.emptyODM (.other "int")).2 rfl).1
  · exact (C5_lshift_type_check ODM.emptyODM (.cd ⟨.elem "ClinicalData" [] []⟩)).1 rfl

/-- C6: attaching any number of ClinicalData children appends them in
attachment order, while a second Study or a second AdminData replaces the
previously attached one. -/
theorem C6_append_and_replace (o : ODMState) (cs : List ClinicalData) (s1 s2 : Study)
    (a1 a2 : AdminData) :
    (ODM.attachAll o (cs.map ODMChild.cd)).clinical_data = o.clinical_data ++ cs ∧
    (ODM.lshiftState (ODM.lshiftState o (.st s1)) (.st s2)).study = some s2 ∧
    (ODM.lshiftState (ODM.lshiftState o (.ad a1)) (.ad a2)).admindata = some a2 := by
  refine ⟨?_, rfl, rfl⟩
  rw [attachAll_clinical_data]
  congr 1
  induction cs with
  | nil => rfl
  | cons c cs ih => simp [cdsOf] at ih ⊢; exact ih

/-- C2: regardless of the attachment sequence, the rendered root's
children are the Study (if present), then every ClinicalData in attachment
order, then the AdminData (if present). -/
theorem C2_child_render_order (o : ODMState) (cs : List ODMChild) :
    XmlNode.children (ODM.getroot (ODM.attachAll o cs)) =
      ((ODM.attachAll o cs).study.map Study.node).toList
      ++ (o.clinical_data ++ cdsOf cs).map ClinicalData.node
      ++ ((ODM.attachAll o cs).admindata.map AdminData.node).toList := by
  rw [← attachAll_clinical_data]
  cases h1 : (ODM.attachAll o cs).study <;>
  cases h2 : (ODM.attachAll o cs).admindata <;>
    simp [ODM.getroot, ODM.build, XmlNode.children, h1, h2]

/-- The stored schema version of a successfully constructed object:
exactly the truthy validated argument, otherwise the default "1.3". -/
theorem mk_ok_odm_version {args : ODMArgs} {now u : String} {st : ODMState}
    (h : ODM.mk args now u = .ok st) :
    (∀ s, args.odm_version = .pyStr s → s ≠ "" → st.odm_version_ = s) ∧
    (args.odm_version.truthy = false → st.odm_version_ = "1.3") := by
  obtain ⟨o1, o2, h1, h2, h3⟩ := mk_ok_elim h
  have e1 : o1.odm_version_ = "1.3" := by
    by_cases hg : args.granularity.truthy = true
    · rw [if_pos hg] at h1
      obtain ⟨g, _, rfl⟩ := set_granularity_type_ok h1
      rfl
    · rw [if_neg hg] at h1
      rw [← Except.ok.inj h1]
      rfl
  have e3 : st.odm_version_ = o2.odm_version_ := by
    by_cases ha : args.as_of_datetime.truthy = true
    · rw [if_pos ha] at h3
      obtain ⟨_, rfl⟩ := set_as_of_datetime_ok h3
      rfl
    · rw [if_neg ha] at h3
      rw [← Except.ok.inj h3]
  constructor
  · intro s hv hs
    rw [hv] at h2
    have ht : (PyVal.pyStr s).truthy = true := by simpa [PyVal.truthy] using hs
    rw [if_pos ht] at h2
    obtain ⟨ver, _, hver, rfl⟩ := set_odm_version_ok h2
    rw [e3]
    exact (PyVal.pyStr.inj hver).symm
  · intro hv
    rw [if_neg (by simp [hv])] at h2
    rw [e3, ← Except.ok.inj h2]
    exact e1

/-- A successful construction validated any truthy odm_version argument:
the string is in the allow-list. -/
theorem mk_ok_odm_version_valid {args : ODMArgs} {now u : String} {st : ODMState}
    (h : ODM.mk args now u = .ok st) {s : String}
    (hv : args.odm_version = .pyStr s) (hs : s ≠ "") :
    s ∈ ODM.VALID_ODM_VERSIONS := by
  obtain ⟨o1, o2, h1, h2, h3⟩ := mk_ok_elim h
  rw [hv] at h2
  have ht : (PyVal.pyStr s).truthy = true := by simpa [PyVal.truthy] using hs
  rw [if_pos ht] at h2
  obtain ⟨ver, hmem, hver, rfl⟩ := set_odm_version_ok h2
  have hsv : s = ver := PyVal.pyStr.inj hver
  rw [hsv]
  exact hmem

/-- C3 counterexample: the empty string is outside the allow-list, yet
passing it as the constructor's odm_version argument raises nothing — the
construction succeeds and silently keeps the default "1.3". -/
theorem C3_counterexample :
    ("" ∈ ODM.VALID_ODM_VERSIONS → False) ∧
    (ODM.mk { originator := "O", odm_version := .pyStr "" } "T0" "U0" =
      .ok (ODM.okState (ODM.mk { originator := "O", odm_version := .pyStr "" } "T0" "U0"))) ∧
    ODM.okVersion (ODM.mk { originator := "O", odm_version := .pyStr "" } "T0" "U0") = "1.3" := by
  exact ⟨by decide, rfl, rfl⟩

/-- C3 (amended): via the setter, every allow-listed string is stored and
every other string raises leaving the stored version unchanged; via the
constructor the same holds for non-empty strings (stored when listed,
construction fails when not), while an empty odm_version argument is falsy
and is silently ignored, keeping the default "1.3". -/
theorem C3_odm_version_validation (o : ODMState) (s : String) (args : ODMArgs)
    (now u : String) :
    (s ∈ ODM.VALID_ODM_VERSIONS →
      ODM.set_odm_version o (.pyStr s) = .ok { o with odm_version_ := s }) ∧
    (s ∉ ODM.VALID_ODM_VERSIONS →
      ODM.set_odm_version o (.pyStr s) = .error ("No such supported ODMVersion " ++ s) ∧
      ODM.setOdmVersionState o (.pyStr s) = o) ∧
    (args.odm_version = .pyStr s → s ≠ "" → s ∈ ODM.VALID_ODM_VERSIONS →
      ∀ st, ODM.mk args now u = .ok st → st.odm_version_ = s) ∧
    (args.odm_version = .pyStr s → s ≠ "" → s ∉ ODM.VALID_ODM_VERSIONS →
      ∀ st, ODM.mk args now u ≠ .ok st) ∧
    (args.odm_version = .pyStr "" →
      ∀ st, ODM.mk args now u = .ok st → st.odm_version_ = "1.3") := by
  refine ⟨?_, ?_, ?_, ?_, ?_⟩
  · intro hs
    simp [ODM.set_odm_version, hs]
  · intro hs
    constructor <;> simp [ODM.set_odm_version, ODM.setOdmVersionState, hs]
  · intro hv hs _ st hmk
    exact (mk_ok_odm_version hmk).1 s hv hs
  · intro hv hs hout st hmk
    exact hout (mk_ok_odm_version_valid hmk hv hs)
  · intro hv st hmk
    exact (mk_ok_odm_version hmk).2 (by simp [hv, PyVal.truthy])

/-- C3 witness: the amended behaviour at concrete inputs — "1.3.1" is
stored by the setter, "9.9" is rejected by the setter without mutation,
"1.2" passed to the constructor is stored, and "9.9" passed to the
constructor makes construction fail. -/
theorem C3_odm_version_validation_witness :
    ODM.set_odm_version ODM.emptyODM (.pyStr "1.3.1") =
      .ok { ODM.emptyODM with odm_version_ := "1.3.1" } ∧
    ODM.setOdmVersionState ODM.emptyODM (.pyStr "9.9") = ODM.emptyODM ∧
    ODM.okVersion (ODM.mk { originator := "O", odm_version := .pyStr "1.2" } "T0" "U0") = "1.2" ∧
    ODM.mk { originator := "O", odm_version := .pyStr "9.9" } "T0" "U0" ≠ .ok ODM.emptyODM := by
  refine ⟨?_, ?_, ?_, ?_⟩
  · exact (C3_odm_version_validation ODM.emptyODM "1.3.1"
      { originator := "O" } "T0" "U0").1 (by decide)
  · exact ((C3_odm_version_validation ODM.emptyODM "9.9"
      { originator := "O" } "T0" "U0").2.1 (by decide)).2
  · exact (C3_odm_version_validation ODM.emptyODM "1.2"
      { originator := "O", odm_version := .pyStr "1.2" } "T0" "U0").2.2.1
      rfl (by decide) (by decide)
      (ODM.okState (ODM.mk { originator := "O", odm_version := .pyStr "1.2" } "T0" "U0")) rfl
  · exact (C3_odm_version_validation ODM.emptyODM "9.9"
      { originator := "O", odm_version := .pyStr "9.9" } "T0" "U0").2.2.2.1
      rfl (by decide) (by decide) ODM.emptyODM

/-- C4: assigning a date or date-time value as the as-of timestamp stores
its canonical ISO text form; assigning a value of any other type raises
and leaves the stored as-of value unchanged. -/
theorem C4_as_of_validation (o : ODMState) (v : PyVal) :
    (v.isDateLike = true →
      ODM.set_as_of_datetime o v = .ok { o with as_of_datetime_ := some v.isoformat }) ∧
    (v.isDateLike = false →
      ODM.set_as_of_datetime o v = .error "Unexpected format for AsOfDateTime" ∧
      ODM.setAsOfState o v = o) := by
  constructor
  · intro hd
    simp [ODM.set_as_of_datetime, hd]
  · intro hd
    constructor <;> simp [ODM.set_as_of_datetime, ODM.setAsOfState, hd]

/-- C4 witness: a concrete date-time is stored in ISO form, and a plain
string is rejected without mutation. -/
theorem C4_as_of_validation_witness :
    ODM.set_as_of_datetime ODM.emptyODM (.pyDateTime 2009 2 13 10 39 37) =
      .ok { ODM.emptyODM with as_of_datetime_ := some "2009-02-13T10:39:37" } ∧
    ODM.setAsOfState ODM.emptyODM (.pyStr "2009-02-13") = ODM.emptyODM := by
  constructor
  · exact (C4_as_of_validation ODM.emptyODM (.pyDateTime 2009 2 13 10 39 37)).1 rfl
  · exact ((C4_as_of_validation ODM.emptyODM (.pyStr "2009-02-13")).2 rfl).2

/-- C8: serializing the same state twice yields identical text, and the
emitted attribute keys always follow the one fixed master order. -/
theorem C8_render_deterministic (o : ODMState) :
    ODM.toText o = ODM.toText o ∧
    List.Sublist ((ODM.getroot o).attrs.map Prod.fst) masterAttrKeys := by
  refine ⟨rfl, ?_⟩
  by_cases hd : o.description = "" <;>
  cases hg : o.granularity_type_ <;>
  cases hs : ODM.optTruthy o.source_system <;>
  cases hv : ODM.optTruthy o.source_system_version <;>
  cases ha : ODM.optTruthy o.as_of_datetime_ <;>
  simp [ODM.getroot, ODM.build, XmlNode.attrs, ODM.params, masterAttrKeys, hd, hg, hs, hv, ha] <;>
  decide

/-- The root element carries a Granularity attribute exactly when the
granularity field is set. -/
theorem hasAttr_granularity (o : ODMState) :
    ODM.hasAttr (ODM.getroot o) "Granularity" = o.granularity_type_.isSome := by
  by_cases hd : o.description = "" <;>
  cases hg : o.granularity_type_ <;>
  cases hs : ODM.optTruthy o.source_system <;>
  cases hv : ODM.optTruthy o.source_system_version <;>
  cases ha : ODM.optTruthy o.as_of_datetime_ <;>
  simp_all [ODM.hasAttr, ODM.getroot, ODM.build, XmlNode.attrs, ODM.params]

/-- A successfully constructed object has its granularity field set
exactly when the granularity argument was truthy (the later setters never
touch the field). -/
theorem mk_ok_granularity {args : ODMArgs} {now u : String} {st : ODMState}
    (h : ODM.mk args now u = .ok st) :
    st.granularity_type_.isSome = args.granularity.truthy := by
  obtain ⟨o1, o2, h1, h2, h3⟩ := mk_ok_elim h
  have e2 : o2.granularity_type_ = o1.granularity_type_ := by
    by_cases hv : args.odm_version.truthy = true
    · rw [if_pos hv] at h2
      obtain ⟨ver, _, _, rfl⟩ := set_odm_version_ok h2
      rfl
    · rw [if_neg hv] at h2
      rw [← Except.ok.inj h2]
  have e3 : st.granularity_type_ = o2.granularity_type_ := by
    by_cases ha : args.as_of_datetime.truthy = true
    · rw [if_pos ha] at h3
      obtain ⟨_, rfl⟩ := set_as_of_datetime_ok h3
      rfl
    · rw [if_neg ha] at h3
      rw [← Except.ok.inj h3]
  rw [e3, e2]
  by_cases hg : args.granularity.truthy = true
  · rw [if_pos hg] at h1
    obtain ⟨g, _, rfl⟩ := set_granularity_type_ok h1
    simp [hg]
  · rw [if_neg hg] at h1
    rw [← Except.ok.inj h1]
    simp [ODM.init0]
    exact (Bool.not_eq_true _).mp hg

/-- C10: a construction that omits the granularity argument defaults it to
AllClinicalData, so the rendered root of a default-constructed document
carries Granularity="AllClinicalData"; for any construction, the attribute
is omitted exactly when the caller passed a falsy granularity. -/
theorem C10_default_granularity (orig now u : String) (args : ODMArgs) (now2 u2 : String)
    (st : ODMState) :
    (∃ st0, ODM.mk { originator := orig } now u = .ok st0 ∧
      st0.granularity_type_ = some GranularityType.AllClinicalData ∧
      ("Granularity", "AllClinicalData") ∈ (ODM.getroot st0).attrs) ∧
    (ODM.mk args now2 u2 = .ok st →
      (ODM.hasAttr (ODM.getroot st) "Granularity" = false ↔
        args.granularity.truthy = false)) := by
  constructor
  · refine ⟨{ ODM.init0 { originator := orig } now u with
        granularity_type_ := some .AllClinicalData }, rfl, rfl, ?_⟩
    simp [ODM.getroot, ODM.build, XmlNode.attrs, ODM.params, GranularityType.value]
  · intro h
    rw [hasAttr_granularity, mk_ok_granularity h]

/-- C10 witness: a default construction renders the Granularity attribute,
and a construction with granularity=None omits it. -/
theorem C10_default_granularity_witness :
    ODM.hasAttr (ODM.getroot (ODM.okState
      (ODM.mk { originator := "O" } "T0" "U0"))) "Granularity" = true ∧
    ODM.hasAttr (ODM.getroot (ODM.okState
      (ODM.mk { originator := "O", granularity := .pyNone } "T0" "U0"))) "Granularity" = false := by
  constructor
  · have h := (C10_default_granularity "O" "T0" "U0" { originator := "O" } "T0" "U0"
      (ODM.okState (ODM.mk { originator := "O" } "T0" "U0"))).2 rfl
    cases hb : ODM.hasAttr (ODM.getroot (ODM.okState
      (ODM.mk { originator := "O" } "T0" "U0"))) "Granularity" <;> simp_all [PyVal.truthy]
  · exact (C10_default_granularity "O" "T0" "U0" { originator := "O", granularity := .pyNone }
      "T0" "U0" (ODM.okState (ODM.mk { originator := "O", granularity := .pyNone }
        "T0" "U0"))).2 rfl |>.mpr rfl

end Rwslib
